import Mathlib

/-
Verification of the Newyear firework/gesture repository.

Shallow embedding conventions:
* JavaScript numbers are modelled as exact rationals (ℚ); all the arithmetic
  the claims depend on (comparisons, clamping, linear updates) is exact.
* `Math.random()` calls are modelled by explicit oracle arguments
  (functions producing rationals); theorems quantify over all oracles.
* `Math.sin` / `Math.cos` / `Math.PI` are modelled by an uninterpreted
  `Trig` environment (they are library math the claims never constrain).
* The browser canvas used by the text rasterizer (font measurement and the
  alpha channel of the rendered bitmap) is modelled by a `CanvasEnv`
  environment; the scanning loop, threshold and coordinate arithmetic are
  embedded exactly.
* Euclidean-distance comparisons in the gesture classifier are embedded via
  squared distances: `dist p q < c` is represented as `distSq p q < c ^ 2`,
  which is equivalent for `c ≥ 0` since squaring is monotone on nonnegatives;
  this keeps every definition computable (no square roots needed).
-/

namespace Newyear

/-! ## Gesture classifier (gesture.service.ts) -/

/-- GestureType from gesture.service.ts. -/
inductive GestureType
  | IDLE
  | PINCH
  | OPEN_PALM
  | V_SIGN
  | OK_SIGN
  | FIST
deriving DecidableEq

/-- HandState from gesture.service.ts. -/
structure HandState where
  gesture : GestureType
  x : ℚ
  y : ℚ
  z : ℚ
  isPresent : Bool
deriving DecidableEq

/-- A 3D point with rational coordinates. -/
abbrev Vec3 := ℚ × ℚ × ℚ

/-- Squared Euclidean distance; `getDistance` in gesture.service.ts returns
`Math.sqrt` of this quantity.  All uses of `getDistance` in the source are
comparisons, embedded below by comparing squares. -/
def distSq (p q : Vec3) : ℚ :=
  (p.1 - q.1) ^ 2 + (p.2.1 - q.2.1) ^ 2 + (p.2.2 - q.2.2) ^ 2

/-- isFingerExtended from gesture.service.ts:
`getDistance(wrist, tip) > getDistance(wrist, mcp) * 1.3` where
`mcp = landmarks[tipIdx - 3]` and `wrist = landmarks[0]`, embedded with
squared distances (`sqrt a > 1.3 * sqrt b ↔ a > 1.69 * b` for `a, b ≥ 0`). -/
def isFingerExtended (l : Fin 21 → Vec3) (tipIdx : Fin 21) : Prop :=
  distSq (l 0) (l tipIdx) > (13 / 10 : ℚ) ^ 2 * distSq (l 0) (l (tipIdx - 3))

instance (l : Fin 21 → Vec3) (tipIdx : Fin 21) :
    Decidable (isFingerExtended l tipIdx) := by
  unfold isFingerExtended; infer_instance

/-- processHand from gesture.service.ts: classifies one set of 21 landmarks
and produces the HandState (pinch comparison `pinchDist < 0.05` embedded as
`distSq < (1/20)^2`).  The classification chain is in source order: FIST,
then PINCH/OK_SIGN, then V_SIGN, then OPEN_PALM, else IDLE. -/
def processHand (l : Fin 21 → Vec3) : HandState :=
  let thumbTip := l 4
  let indexTip := l 8
  let pinchDistSq := distSq thumbTip indexTip
  let isIndexExt := isFingerExtended l 8
  let isMiddleExt := isFingerExtended l 12
  let isRingExt := isFingerExtended l 16
  let isPinkyExt := isFingerExtended l 20
  let gesture : GestureType :=
    if ¬isIndexExt ∧ ¬isMiddleExt ∧ ¬isRingExt ∧ ¬isPinkyExt then
      GestureType.FIST
    else if pinchDistSq < (1 / 20 : ℚ) ^ 2 then
      if isMiddleExt ∧ isRingExt ∧ isPinkyExt then GestureType.OK_SIGN
      else GestureType.PINCH
    else if isIndexExt ∧ isMiddleExt ∧ ¬isPinkyExt then GestureType.V_SIGN
    else if isIndexExt ∧ isMiddleExt ∧ isRingExt ∧ isPinkyExt then
      GestureType.OPEN_PALM
    else GestureType.IDLE
  { gesture := gesture
    x := 1 - indexTip.1
    y := indexTip.2.1
    z := indexTip.2.2
    isPresent := true }

/-! ## Trig / canvas environments (external library math and browser canvas) -/

/-- Uninterpreted real-math environment standing for `Math.sin`, `Math.cos`
and `Math.PI` of the JavaScript runtime. -/
structure Trig where
  sin : ℚ → ℚ
  cos : ℚ → ℚ
  pi : ℚ

/-- Browser-canvas environment for the text rasterizer in
`getPointsFromTextCanvas`: `widthOf` is `Math.ceil(ctx.measureText(text).width)`,
`alpha` is the alpha channel of the rendered bitmap at pixel `(x, y)`, and
`zrand` is the `Math.random()` draw used for the per-point z jitter. -/
structure CanvasEnv where
  widthOf : String → ℕ
  alpha : String → ℕ → ℕ → ℕ
  zrand : ℕ → ℕ → ℚ
  trig : Trig

/-! ## Particle system (visual-engine.service.ts) -/

/-- The life-cycle state of a ParticleSystem. -/
inductive SysState
  | ROCKET
  | EXPLODING
  | WEAVING
  | FADING
deriving DecidableEq

/-- ParticleSystem from visual-engine.service.ts.  In the source the geometry
position attribute is the `currentPositions` array itself and the geometry
color attribute is the `colors` array itself (they alias), so one field each
suffices.  `opacity` and `size` are the material scalars; `targetX`/`targetY`
are the fields attached to the system right after it is pushed. -/
structure ParticleSystem where
  currentPositions : List ℚ
  originalPositions : List ℚ
  velocities : List ℚ
  colors : List ℚ
  state : SysState
  timer : ℚ
  rocketPos : Vec3
  rocketVelocity : Vec3
  opacity : ℚ
  size : ℚ
  targetX : ℚ
  targetY : ℚ
deriving DecidableEq

/-- The fixed per-tick time step `dt = 0.016` of `animate`. -/
def dt : ℚ := 16 / 1000

/-- The ROCKET per-particle loop of `animate`: iterates `j` over
`positions.length / 3`, recomputing each particle's displayed position from
the rocket head position plus lag-dependent spread, and overwriting the
(aliased) color array with white near the head or a dimmed base color.
`r j k` is the k-th `Math.random()` draw of particle `j`. -/
def rocketLoop (r : ℕ → ℕ → ℚ) (rp : Vec3) :
    ℕ → List ℚ → List ℚ → List ℚ × List ℚ
  | j, _px :: _py :: _pz :: ps, cr :: cg :: cb :: cs =>
      let lag := r j 0
      let lagCurve := lag ^ 6
      let spread := 1 / 20 + lagCurve * (2 / 5)
      let nx := rp.1 + (r j 1 - 1 / 2) * spread
      let ny := rp.2.1 - lagCurve * 8
      let nz := rp.2.2 + (r j 2 - 1 / 2) * spread
      let c :=
        if lagCurve < 1 / 50 then ((1 : ℚ), (1 : ℚ), (1 : ℚ))
        else (cr * (3 / 5 * (1 - lagCurve)), cg * (3 / 5 * (1 - lagCurve)),
              cb * (3 / 5 * (1 - lagCurve)))
      let rest := rocketLoop r rp (j + 1) ps cs
      (nx :: ny :: nz :: rest.1, c.1 :: c.2.1 :: c.2.2 :: rest.2)
  | _, ps, cs => (ps, cs)

/-- The EXPLODING per-particle loop of `animate`: each particle integrates its
stored velocity, and velocities decay by the damping factor 0.9. -/
def explodeLoop : List ℚ → List ℚ → List ℚ × List ℚ
  | px :: py :: pz :: ps, vx :: vy :: vz :: vs =>
      let rest := explodeLoop ps vs
      ((px + vx) :: (py + vy) :: (pz + vz) :: rest.1,
       (vx * (9 / 10)) :: (vy * (9 / 10)) :: (vz * (9 / 10)) :: rest.2)
  | ps, vs => (ps, vs)

/-- The WEAVING per-particle loop of `animate`: each particle moves toward its
target (`originalPositions` offset by the spawn targetX/targetY) by
`moveFactor` of the remaining distance, plus per-axis jitter of magnitude
`spread`. -/
def weaveLoop (r : ℕ → ℕ → ℚ) (mf spread tx ty : ℚ) :
    ℕ → List ℚ → List ℚ → List ℚ
  | j, px :: py :: pz :: ps, ox :: oy :: oz :: os =>
      let nx := px + (ox + tx - px) * mf + (r j 0 - 1 / 2) * spread
      let ny := py + (oy + ty - py) * mf + (r j 1 - 1 / 2) * spread
      let nz := pz + (oz - pz) * mf + (r j 2 - 1 / 2) * spread
      nx :: ny :: nz :: weaveLoop r mf spread tx ty (j + 1) ps os
  | _, ps, _ => ps

/-- The FADING per-particle loop of `animate`: particles drift down by 0.05
per tick with lateral jitter of magnitude 0.15. -/
def fadeLoop (r : ℕ → ℕ → ℚ) : ℕ → List ℚ → List ℚ
  | j, px :: py :: pz :: ps =>
      (px + (r j 0 - 1 / 2) * (3 / 20)) :: (py - 1 / 20) ::
        (pz + (r j 1 - 1 / 2) * (3 / 20)) :: fadeLoop r (j + 1) ps
  | _, ps => ps

/-- One `animate` tick applied to a single ParticleSystem (the body of the
per-system loop in `animate`, lines 559-681): advances the timer by `dt`,
runs the state-specific physics, performs the state transition, and returns
`none` exactly when the system is removed (FADING with opacity ≤ 0).
On the ROCKET → EXPLODING transition the source's color-restore loop writes
`colors[j] = sys.colors[j]` on the aliased color array and is therefore the
identity; the material size is set to 0.18 there. -/
def stepSystem (r : ℕ → ℕ → ℚ) (sys : ParticleSystem) : Option ParticleSystem :=
  let t := sys.timer + dt
  match sys.state with
  | SysState.ROCKET =>
      let rp := (sys.rocketPos.1 + sys.rocketVelocity.1,
                 sys.rocketPos.2.1 + sys.rocketVelocity.2.1,
                 sys.rocketPos.2.2 + sys.rocketVelocity.2.2)
      let pc := rocketLoop r rp 0 sys.currentPositions sys.colors
      if rp.2.1 ≥ sys.targetY then
        some { sys with
          state := SysState.EXPLODING
          timer := 0
          rocketPos := rp
          currentPositions := pc.1
          colors := pc.2
          size := 9 / 50 }
      else
        some { sys with
          timer := t
          rocketPos := rp
          currentPositions := pc.1
          colors := pc.2 }
  | SysState.EXPLODING =>
      let pv := explodeLoop sys.currentPositions sys.velocities
      if t > 3 / 5 then
        some { sys with
          state := SysState.WEAVING
          timer := 0
          currentPositions := pv.1
          velocities := pv.2 }
      else
        some { sys with timer := t, currentPositions := pv.1, velocities := pv.2 }
  | SysState.WEAVING =>
      let weaveDuration : ℚ := 12 / 5
      let progress := min (t / weaveDuration) 1
      let moveFactor := 1 / 10 * (1 - progress ^ 2)
      let spread := 1 / 50 + progress * (1 / 10)
      let newOpacity : ℚ :=
        if progress > 3 / 5 then 1 - (progress - 3 / 5) / (2 / 5) * (1 / 2)
        else 1
      let pos := weaveLoop r moveFactor spread sys.targetX sys.targetY 0
        sys.currentPositions sys.originalPositions
      if t > weaveDuration then
        some { sys with
          state := SysState.FADING
          timer := t
          opacity := newOpacity
          currentPositions := pos }
      else
        some { sys with timer := t, opacity := newOpacity, currentPositions := pos }
  | SysState.FADING =>
      let newOpacity := sys.opacity - 1 / 50
      let pos := fadeLoop r 0 sys.currentPositions
      if newOpacity ≤ 0 then none
      else
        some { sys with timer := t, opacity := newOpacity, currentPositions := pos }

/-- One tick of the registry on an optional system: a removed system stays
removed.  `R n` supplies the random draws of tick `n`. -/
def stepO (R : ℕ → ℕ → ℕ → ℚ) (n : ℕ) :
    Option ParticleSystem → Option ParticleSystem
  | none => none
  | some s => stepSystem (R n) s

/-- The trace of one ParticleSystem under successive `animate` ticks. -/
def sysTrace (R : ℕ → ℕ → ℕ → ℚ) (sys : ParticleSystem) : ℕ → Option ParticleSystem
  | 0 => some sys
  | n + 1 => stepO R n (sysTrace R sys n)

/-- Position of a state in the life-cycle order ROCKET, EXPLODING, WEAVING,
FADING. -/
def stateIdx : SysState → ℕ
  | SysState.ROCKET => 0
  | SysState.EXPLODING => 1
  | SysState.WEAVING => 2
  | SysState.FADING => 3

/-! ## Shape rasterizer and cache (getPointsFromTextCanvas) -/

/-- The string constant `'HEART'`. -/
def HEART : String := "HEART"

/-- The parametric heart point cloud of `getPointsFromTextCanvas` (3000
samples of the closed-form heart curve, both axes scaled by 1.2, z = 0). -/
def heartPoints (trig : Trig) : List Vec3 :=
  (List.range 3000).map fun i =>
    let t := (i : ℚ) / 3000 * trig.pi * 2
    let x := 16 * trig.sin t ^ 3
    let y := 13 * trig.cos t - 5 * trig.cos (2 * t) - 2 * trig.cos (3 * t) -
      trig.cos (4 * t)
    (x * (6 / 5), y * (6 / 5), 0)

/-- The text-rasterization branch of `getPointsFromTextCanvas`: the canvas is
`widthOf text` pixels wide and `fontSize * 1.5 = 150` pixels high; every pixel
whose alpha exceeds 128 yields the point
`((x - width/2) * scale, -(y - height/2) * scale, (rand - 0.5) * 1.0)`. -/
def textPoints (env : CanvasEnv) (text : String) (scale : ℚ) : List Vec3 :=
  (List.range 150).flatMap fun y =>
    (List.range (env.widthOf text)).filterMap fun x =>
      if env.alpha text x y > 128 then
        some (((x : ℚ) - ((env.widthOf text : ℕ) : ℚ) / 2) * scale,
              (-((y : ℚ) - (150 : ℚ) / 2)) * scale,
              (env.zrand x y - 1 / 2) * 1)
      else none

/-- The `textPointsCache` object: an association list from cache key to point
cloud. -/
abbrev PointsCache := List (String × List Vec3)

/-- Lookup in the cache (`this.textPointsCache[cacheKey]`; note a cached empty
array is still truthy in JavaScript, hence a hit). -/
def lookupC : PointsCache → String → Option (List Vec3)
  | [], _ => none
  | (k, v) :: rest, key => if k = key then some v else lookupC rest key

/-- getPointsFromTextCanvas from visual-engine.service.ts.  The cache key is
`shapeType ? shapeType : text` — the scale is NOT part of the key.  On a miss
the computed cloud is stored under that key; on a hit the cached cloud is
returned unchanged. -/
def getPointsFromTextCanvas (env : CanvasEnv) (cache : PointsCache)
    (text : String) (scale : ℚ) (shapeType : Option String) :
    List Vec3 × PointsCache :=
  let cacheKey := shapeType.getD text
  match lookupC cache cacheKey with
  | some pts => (pts, cache)
  | none =>
      if shapeType = some HEART then
        let targets := heartPoints env.trig
        (targets, (cacheKey, targets) :: cache)
      else
        let points := textPoints env text scale
        (points, (cacheKey, points) :: cache)

/-! ## Palettes and spawning (spawnRocketFirework) -/

/-- One named palette. -/
structure Palette where
  name : String
  colors : List ℕ
deriving DecidableEq

/-- PALETTES from visual-engine.service.ts. -/
def PALETTES : List Palette :=
  [ { name := "赤 (Red)", colors := [0xFF0000, 0xFF4D4D, 0xFF9999, 0xFFFFFF, 0xDC143C] },
    { name := "橙 (Orange)", colors := [0xFF7F00, 0xFFA500, 0xFFD700, 0xFFFFFF, 0xFF4500] },
    { name := "黄 (Yellow)", colors := [0xFFFF00, 0xFFFFE0, 0xFFD700, 0xFFFFFF, 0xDAA520] },
    { name := "绿 (Green)", colors := [0x00FF00, 0x32CD32, 0x90EE90, 0xFFFFFF, 0x006400] },
    { name := "青 (Cyan)", colors := [0x00FFFF, 0x40E0D0, 0xE0FFFF, 0xFFFFFF, 0x008B8B] },
    { name := "蓝 (Blue)", colors := [0x0000FF, 0x1E90FF, 0x87CEFA, 0xFFFFFF, 0x000080] },
    { name := "紫 (Purple)", colors := [0x8B00FF, 0x9370DB, 0xE6E6FA, 0xFFFFFF, 0x4B0082] } ]

/-- The default used for out-of-range palette indexing (never reached for the
indices that occur). -/
def emptyPalette : Palette := { name := "", colors := [] }

/-- Red, green and blue channels of a hex color, as THREE.Color.setHex
computes them. -/
def hexChannels (h : ℕ) : Vec3 :=
  ((((h / 65536) % 256 : ℕ) : ℚ) / 255,
   (((h / 256) % 256 : ℕ) : ℚ) / 255,
   ((h % 256 : ℕ) : ℚ) / 255)

/-- The initial outward velocity of one particle in `spawnRocketFirework`:
spherical direction from two random angles, random speed in [0.3, 1.5). -/
def velOf (trig : Trig) (tr pr sr : ℚ) : Vec3 :=
  let theta := tr * trig.pi * 2
  let phi := pr * trig.pi
  let speed := 3 / 10 + sr * (12 / 10)
  (speed * trig.sin phi * trig.cos theta,
   speed * trig.sin phi * trig.sin theta,
   speed * trig.cos phi)

/-- The base color of one particle in `spawnRocketFirework`: a random palette
entry `palette[Math.floor(random * palette.length)]`. -/
def colorOf (palette : List ℕ) (cr : ℚ) : Vec3 :=
  hexChannels (palette.getD (Int.floor (cr * (palette.length : ℚ))).toNat 0)

/-- Flattens `n` triples into the `3 * n`-long buffer layout of the source's
Float32Arrays. -/
def flat3 (f : ℕ → Vec3) : ℕ → List ℚ
  | 0 => []
  | n + 1 => flat3 f n ++ [(f n).1, (f n).2.1, (f n).2.2]

/-- The ParticleSystem constructed by `spawnRocketFirework` from a resolved
target shape of `targets.length` points: every particle starts at the launch
point `(targetX, -60, 0)`, `originalPositions` copies the target points,
velocities and base colors are drawn from the oracle `r` (`r i k` is the k-th
random draw of particle `i`), and `rv` is the random draw for the rocket
ascent speed `0.8 + rv * 0.4`. -/
def mkSystem (trig : Trig) (targets : List Vec3) (palette : List ℕ)
    (r : ℕ → ℕ → ℚ) (rv tx ty : ℚ) : ParticleSystem :=
  let count := targets.length
  { currentPositions := flat3 (fun _ => (tx, -60, 0)) count
    originalPositions := flat3 (fun i => targets.getD i (0, 0, 0)) count
    velocities := flat3 (fun i => velOf trig (r i 0) (r i 1) (r i 2)) count
    colors := flat3 (fun i => colorOf palette (r i 3)) count
    state := SysState.ROCKET
    timer := 0
    rocketPos := (tx, -60, 0)
    rocketVelocity := (0, 4 / 5 + rv * (2 / 5), 0)
    opacity := 1
    size := 1 / 4
    targetX := tx
    targetY := ty }

/-! ## Engine state and operations (VisualEngineService) -/

/-- AppMode from visual-engine.service.ts. -/
inductive AppMode
  | COUNTDOWN
  | SHOW
deriving DecidableEq

/-- The mutable state of VisualEngineService that the claims concern.
`mouse` is the NDC pointer `this.mouse`; `cameraZ` is
`this.camera.position.z`; `cursorColorHex` is the hand-cursor material color;
`loopElapsed` is the elapsed-milliseconds accumulator of the `runTextLoop`
wait loop. -/
structure EngineState where
  mode : AppMode
  currentPaletteIndex : ℕ
  isHandDetected : Bool
  handGesture : GestureType
  isPaused : Bool
  lastTriggerTime : ℤ
  currentAction : String
  mouse : ℚ × ℚ
  cameraZ : ℚ
  nebulaRotZ : ℚ
  cursorPos : Vec3
  cursorVisible : Bool
  cursorColorHex : ℕ
  systems : List ParticleSystem
  textPointsCache : PointsCache
  loopElapsed : ℕ
deriving DecidableEq

/-- The engine state right after `init`: palette index 1, camera at z = 50,
no hand, empty registry and cache. -/
def initEngine : EngineState :=
  { mode := AppMode.COUNTDOWN
    currentPaletteIndex := 1
    isHandDetected := false
    handGesture := GestureType.IDLE
    isPaused := false
    lastTriggerTime := 0
    currentAction := "READY"
    mouse := (0, 0)
    cameraZ := 50
    nebulaRotZ := 0
    cursorPos := (0, 0, 0)
    cursorVisible := false
    cursorColorHex := 0x00ffff
    systems := []
    textPointsCache := []
    loopElapsed := 0 }

/-- The exposed current-theme label `currentTheme`:
`PALETTES[this.currentPaletteIndex].name`. -/
def currentTheme (s : EngineState) : String :=
  (PALETTES.getD s.currentPaletteIndex emptyPalette).name

/-- cyclePalette from visual-engine.service.ts: draws random indices until one
differs from the current index and installs it.  `pick` is the index finally
drawn (the loop guarantees `pick ≠ currentPaletteIndex`).  The repository
defines this routine but never calls it. -/
def cyclePalette (pick : ℕ) (s : EngineState) : EngineState :=
  { s with currentPaletteIndex := pick }

/-- One spawn request handed to `spawnRocketFirework`. -/
structure SpawnReq where
  text : String
  scale : ℚ
  targetX : ℚ
  targetY : ℚ
  shapeType : Option String
deriving DecidableEq

/-- The request issued by `spawnSpecialShape('HEART')`: key `SHAPE_HEART`,
scale 1, centered. -/
def heartReq : SpawnReq :=
  { text := "SHAPE_HEART", scale := 1, targetX := 0, targetY := 0,
    shapeType := some HEART }

/-- The candidate texts of `spawnRandomFirework`. -/
def finaleTexts : List String := ["福", "春", "喜", "✨", "2026", "✦", "★"]

/-- The six staggered `spawnRandomFirework` requests scheduled by
`triggerFinale`; `rf i k` is the k-th random draw of the i-th firework. -/
def finaleReqs (rf : ℕ → ℕ → ℚ) : List SpawnReq :=
  (List.range 6).map fun i =>
    { text := finaleTexts.getD ((Int.floor (rf i 0 * 7)).toNat) ("")
      scale := 1 / 4
      targetX := (rf i 1 - 1 / 2) * 80
      targetY := (rf i 2 - 1 / 2) * 40
      shapeType := none }

/-- updateHand from visual-engine.service.ts: records the presence flag, the
gesture, and the NDC pointer mapping BEFORE the presence check; when the hand
is absent it then sets the status to NO SIGNAL and returns; otherwise it runs
the discrete-gesture triggers against the single shared `lastTriggerTime`
cooldown (V_SIGN: 1500 ms, OK_SIGN: 3000 ms).  Returns the new state and the
list of spawn requests issued by the call.  `rf` supplies the random draws of
a triggered finale. -/
def updateHandE (rf : ℕ → ℕ → ℚ) (now : ℤ) (x y : ℚ) (gesture : GestureType)
    (isPresent : Bool) (s : EngineState) : EngineState × List SpawnReq :=
  let s := { s with
    isHandDetected := isPresent
    handGesture := gesture
    mouse := (x * 2 - 1, -(y * 2) + 1) }
  if isPresent = false then
    ({ s with currentAction := "NO SIGNAL" }, [])
  else if gesture = GestureType.V_SIGN then
    if now - s.lastTriggerTime > 1500 then
      ({ s with lastTriggerTime := now, currentAction := "❤ LOVE (V-SIGN)" },
       [heartReq])
    else (s, [])
  else if gesture = GestureType.OK_SIGN then
    if now - s.lastTriggerTime > 3000 then
      ({ s with lastTriggerTime := now, currentAction := "🎆 FINALE (OK)" },
       finaleReqs rf)
    else (s, [])
  else if gesture = GestureType.PINCH ∨ gesture = GestureType.OPEN_PALM then
    (s, [])
  else
    ({ s with currentAction := "READY" }, [])

/-- spawnRocketFirework from visual-engine.service.ts at the engine level:
resolves (and caches) the target shape, then — only if the shape is nonempty —
appends a freshly constructed system to the registry.  A zero-point shape
leaves the registry untouched (the cache write inside
`getPointsFromTextCanvas` has already happened). -/
def spawnRocketFireworkE (env : CanvasEnv) (r : ℕ → ℕ → ℚ) (rv : ℚ)
    (text : String) (scale tx ty : ℚ) (shapeType : Option String)
    (s : EngineState) : EngineState :=
  let res := getPointsFromTextCanvas env s.textPointsCache text scale shapeType
  let s := { s with textPointsCache := res.2 }
  if res.1.length = 0 then s
  else
    { s with systems := s.systems ++
        [mkSystem env.trig res.1
          (PALETTES.getD s.currentPaletteIndex emptyPalette).colors r rv tx ty] }

/-- The continuous-zoom update of `animate`: while a hand is detected, PINCH
nudges the camera distance down by 0.2 clamped at 10, OPEN_PALM nudges it up
by 0.2 clamped at 120. -/
def zoomStep (detected : Bool) (g : GestureType) (z : ℚ) : ℚ :=
  if detected then
    if g = GestureType.PINCH then max 10 (z - 1 / 5)
    else if g = GestureType.OPEN_PALM then min 120 (z + 1 / 5)
    else z
  else z

/-- Camera distance after `n` ticks of the continuous-zoom update under
arbitrary per-tick detection flags and gestures. -/
def zoomIter (ds : ℕ → Bool) (gs : ℕ → GestureType) (z : ℚ) : ℕ → ℚ
  | 0 => z
  | n + 1 => zoomStep (ds n) (gs n) (zoomIter ds gs z n)

/-- One tick of the `runTextLoop` wait loop: the elapsed accumulator advances
by 100 ms only while not paused. -/
def loopWaitTick (paused : Bool) (elapsed : ℕ) : ℕ :=
  if paused then elapsed else elapsed + 100

/-- External THREE.js camera math for the cursor: `unproject mouse z` is the
intersection point of the pointer ray with the z = 0 plane computed by
`animate` from the raycaster/unprojection (library code, modelled as an
environment). -/
structure AnimEnv where
  unproject : ℚ × ℚ → ℚ → Vec3

/-- The per-tick registry advance of `animate`: every live system takes one
`stepSystem` step and removed systems are spliced out, preserving order.
`R i` supplies the random draws of the system at position `i`. -/
def stepAll (R : ℕ → ℕ → ℕ → ℚ) : ℕ → List ParticleSystem → List ParticleSystem
  | _, [] => []
  | i, sys :: rest =>
      match stepSystem (R i) sys with
      | none => stepAll R (i + 1) rest
      | some sys2 => sys2 :: stepAll R (i + 1) rest

/-- One `animate` tick at the engine level, in source order: nebula rotation,
continuous zoom (with its status text), cursor feedback (position, visibility,
red-while-paused color), then the pause gate — when paused the tick renders
and returns without touching any particle system; otherwise every system
advances one step. -/
def animateTick (env : AnimEnv) (R : ℕ → ℕ → ℕ → ℚ) (s : EngineState) :
    EngineState :=
  let s := { s with nebulaRotZ := s.nebulaRotZ + 2 / 10000 }
  let s :=
    if s.isHandDetected then
      if s.handGesture = GestureType.PINCH then
        { s with cameraZ := max 10 (s.cameraZ - 1 / 5),
                 currentAction := "🔍 ZOOM IN (PINCH)" }
      else if s.handGesture = GestureType.OPEN_PALM then
        { s with cameraZ := min 120 (s.cameraZ + 1 / 5),
                 currentAction := "🔭 ZOOM OUT (PALM)" }
      else s
    else s
  let s := { s with
    cursorPos := env.unproject s.mouse s.cameraZ
    cursorVisible := s.isHandDetected
    cursorColorHex :=
      if s.isHandDetected then
        if s.isPaused then 0xff0000 else 0x00ffff
      else s.cursorColorHex }
  if s.isPaused then s
  else { s with systems := stepAll R 0 s.systems }

/-- The operations the running program performs on the engine state (the
control surface plus the internal tick and spawn paths).  `cyclePalette` is
not among them: the repository never invokes it. -/
inductive EngineOp
  | updateHandOp (rf : ℕ → ℕ → ℚ) (now : ℤ) (x y : ℚ) (g : GestureType)
      (isPresent : Bool)
  | spawnOp (env : CanvasEnv) (r : ℕ → ℕ → ℚ) (rv : ℚ) (text : String)
      (scale tx ty : ℚ) (shapeType : Option String)
  | animateOp (env : AnimEnv) (R : ℕ → ℕ → ℕ → ℚ)
  | startShowOp
  | setPausedOp (b : Bool)
  | loopTickOp

/-- Effect of each operation on the engine state. -/
def applyOp : EngineOp → EngineState → EngineState
  | EngineOp.updateHandOp rf now x y g p, s => (updateHandE rf now x y g p s).1
  | EngineOp.spawnOp env r rv text scale tx ty st, s =>
      spawnRocketFireworkE env r rv text scale tx ty st s
  | EngineOp.animateOp env R, s => animateTick env R s
  | EngineOp.startShowOp, s =>
      { s with mode := AppMode.SHOW, currentAction := "SHOW STARTED" }
  | EngineOp.setPausedOp b, s => { s with isPaused := b }
  | EngineOp.loopTickOp, s =>
      { s with loopElapsed := loopWaitTick s.isPaused s.loopElapsed }

/-- Engine states reachable from the initial state by program operations. -/
inductive Reachable : EngineState → Prop
  | init : Reachable initEngine
  | step (op : EngineOp) {s : EngineState} (h : Reachable s) :
      Reachable (applyOp op s)

/-! ## Life-cycle lemmas -/

/-- A surviving `animate` step keeps the state or advances it to the next
life-cycle stage. -/
theorem stepSystem_state (r : ℕ → ℕ → ℚ) (s s2 : ParticleSystem)
    (h : stepSystem r s = some s2) :
    stateIdx s2.state = stateIdx s.state ∨
      stateIdx s2.state = stateIdx s.state + 1 := by
  obtain ⟨cp, op, vel, col, st, tm, rp, rv, opc, sz, tx, ty⟩ := s
  cases st <;> simp only [stepSystem] at h <;> split at h <;>
    first
      | (cases h; simp [stateIdx])
      | simp_all

/-- An `animate` step removes a system only from the FADING state. -/
theorem stepSystem_none (r : ℕ → ℕ → ℚ) (s : ParticleSystem)
    (h : stepSystem r s = none) : s.state = SysState.FADING := by
  obtain ⟨cp, op, vel, col, st, tm, rp, rv, opc, sz, tx, ty⟩ := s
  cases st <;> simp only [stepSystem] at h <;> first
    | rfl
    | (split at h <;> simp_all)

/-- C1: for every particle system and every sequence of `animate` ticks, each
step either stays in the current state or advances to the immediately next
state in the order ROCKET, EXPLODING, WEAVING, FADING (so no state is
skipped, no transition goes backward and there is no cycle), and removal from
the registry happens only out of FADING — for arbitrary spawn parameters,
since the theorem quantifies over every starting system and random oracle. -/
theorem c1_state_machine_order (R : ℕ → ℕ → ℕ → ℚ) (sys : ParticleSystem)
    (n : ℕ) :
    (∀ s s2, sysTrace R sys n = some s → sysTrace R sys (n + 1) = some s2 →
       stateIdx s2.state = stateIdx s.state ∨
         stateIdx s2.state = stateIdx s.state + 1)
    ∧ (sysTrace R sys (n + 1) = none →
       sysTrace R sys n = none ∨
         ∃ s, sysTrace R sys n = some s ∧ s.state = SysState.FADING) := by
  constructor
  · intro s s2 h1 h2
    simp only [sysTrace, h1, stepO] at h2
    exact stepSystem_state _ _ _ h2
  · intro h2
    cases h1 : sysTrace R sys n with
    | none => exact Or.inl rfl
    | some s =>
        refine Or.inr ⟨s, rfl, ?_⟩
        simp only [sysTrace, h1, stepO] at h2
        exact stepSystem_none _ _ h2

/-- Constant-zero random oracle used by witnesses. -/
def wR : ℕ → ℕ → ℕ → ℚ := fun _ _ _ => 0

/-- A concrete one-particle system in ROCKET state, as spawned at the origin
with target height 0 and ascent speed 1. -/
def wSys : ParticleSystem :=
  { currentPositions := [0, -60, 0], originalPositions := [0, 0, 0],
    velocities := [0, 0, 0], colors := [0, 0, 0], state := SysState.ROCKET,
    timer := 0, rocketPos := (0, -60, 0), rocketVelocity := (0, 1, 0),
    opacity := 1, size := 1 / 4, targetX := 0, targetY := 0 }

/-- The system `wSys` after one `animate` tick under the zero oracle. -/
def wSys1 : ParticleSystem :=
  { currentPositions := [-1 / 40, -59, -1 / 40], originalPositions := [0, 0, 0],
    velocities := [0, 0, 0], colors := [1, 1, 1], state := SysState.ROCKET,
    timer := 2 / 125, rocketPos := (0, -59, 0), rocketVelocity := (0, 1, 0),
    opacity := 1, size := 1 / 4, targetX := 0, targetY := 0 }

/-- Witness for C1: a concrete tick of a concrete system respects the
life-cycle order. -/
theorem c1_witness :
    (stateIdx wSys1.state = stateIdx wSys.state ∨
      stateIdx wSys1.state = stateIdx wSys.state + 1) ∧
    sysTrace wR wSys 1 = some wSys1 := by
  have h1 : sysTrace wR wSys 1 = some wSys1 := by
    show stepO wR 0 (sysTrace wR wSys 0) = some wSys1
    norm_num [sysTrace, stepO, stepSystem, rocketLoop, wR, wSys, wSys1, dt]
  exact ⟨(c1_state_machine_order wR wSys 0).1 wSys wSys1 rfl h1, h1⟩

/-! ## Buffer-length lemmas -/

/-- The ROCKET trail loop preserves the lengths of the position and color
buffers. -/
theorem rocketLoop_len (r : ℕ → ℕ → ℚ) (rp : Vec3) (j : ℕ) (ps cs : List ℚ) :
    (rocketLoop r rp j ps cs).1.length = ps.length ∧
    (rocketLoop r rp j ps cs).2.length = cs.length := by
  induction j, ps, cs using rocketLoop.induct r rp with
  | case1 j px py pz ps cr cg cb cs ih => simp [rocketLoop, ih.1, ih.2]
  | case2 => simp [rocketLoop]

/-- The EXPLODING loop preserves the lengths of the position and velocity
buffers. -/
theorem explodeLoop_len (ps vs : List ℚ) :
    (explodeLoop ps vs).1.length = ps.length ∧
    (explodeLoop ps vs).2.length = vs.length := by
  induction ps, vs using explodeLoop.induct with
  | case1 px py pz ps vx vy vz vs ih => simp [explodeLoop, ih.1, ih.2]
  | case2 => simp [explodeLoop]

/-- The WEAVING loop preserves the length of the position buffer. -/
theorem weaveLoop_len (r : ℕ → ℕ → ℚ) (mf spread tx ty : ℚ) (j : ℕ)
    (ps os : List ℚ) :
    (weaveLoop r mf spread tx ty j ps os).length = ps.length := by
  induction j, ps, os using weaveLoop.induct r mf spread tx ty with
  | case1 j px py pz ps ox oy oz os ih => simp [weaveLoop, ih]
  | case2 => simp [weaveLoop]

/-- The FADING loop preserves the length of the position buffer. -/
theorem fadeLoop_len (r : ℕ → ℕ → ℚ) (j : ℕ) (ps : List ℚ) :
    (fadeLoop r j ps).length = ps.length := by
  induction j, ps using fadeLoop.induct r with
  | case1 j px py pz ps ih => simp [fadeLoop, ih]
  | case2 => simp [fadeLoop]

/-- A surviving `animate` step preserves the length of all four particle
buffers. -/
theorem stepSystem_len (r : ℕ → ℕ → ℚ) (s s2 : ParticleSystem)
    (h : stepSystem r s = some s2) :
    s2.currentPositions.length = s.currentPositions.length ∧
    s2.originalPositions.length = s.originalPositions.length ∧
    s2.velocities.length = s.velocities.length ∧
    s2.colors.length = s.colors.length := by
  obtain ⟨cp, op, vel, col, st, tm, rp, rv, opc, sz, tx, ty⟩ := s
  cases st <;> simp only [stepSystem] at h <;> split at h <;>
    first
      | (cases h
         simp [rocketLoop_len, explodeLoop_len, weaveLoop_len, fadeLoop_len,
           (rocketLoop_len r _ 0 cp col).1, (rocketLoop_len r _ 0 cp col).2,
           (explodeLoop_len cp vel).1, (explodeLoop_len cp vel).2])
      | simp_all

/-- Buffer lengths are invariant along the whole trace of a system. -/
theorem sysTrace_len (R : ℕ → ℕ → ℕ → ℚ) (sys : ParticleSystem) (n : ℕ)
    (s : ParticleSystem) (h : sysTrace R sys n = some s) :
    s.currentPositions.length = sys.currentPositions.length ∧
    s.originalPositions.length = sys.originalPositions.length ∧
    s.velocities.length = sys.velocities.length ∧
    s.colors.length = sys.colors.length := by
  induction n generalizing s with
  | zero =>
      simp only [sysTrace] at h
      cases h
      exact ⟨rfl, rfl, rfl, rfl⟩
  | succ n ih =>
      simp only [sysTrace] at h
      cases h2 : sysTrace R sys n with
      | none => rw [h2] at h; simp [stepO] at h
      | some sMid =>
          rw [h2] at h
          simp only [stepO] at h
          obtain ⟨a1, a2, a3, a4⟩ := stepSystem_len (R n) sMid s h
          obtain ⟨b1, b2, b3, b4⟩ := ih sMid h2
          exact ⟨a1.trans b1, a2.trans b2, a3.trans b3, a4.trans b4⟩

/-- Length of a flattened triple buffer. -/
theorem flat3_len (f : ℕ → Vec3) (n : ℕ) : (flat3 f n).length = 3 * n := by
  induction n with
  | zero => simp [flat3]
  | succ n ih => simp [flat3, ih]; ring

/-- C3: a system spawned from a resolved target shape of `N` points has
position, velocity and color buffers of length `3 × N` (hence exactly `N`
particles), and those lengths are unchanged by every `animate` tick in every
subsequent state until removal. -/
theorem c3_particle_count_invariant (trig : Trig) (targets : List Vec3)
    (palette : List ℕ) (r : ℕ → ℕ → ℚ) (rv tx ty : ℚ)
    (R : ℕ → ℕ → ℕ → ℚ) (n : ℕ) (s : ParticleSystem)
    (h : sysTrace R (mkSystem trig targets palette r rv tx ty) n = some s) :
    s.currentPositions.length = 3 * targets.length ∧
    s.velocities.length = 3 * targets.length ∧
    s.colors.length = 3 * targets.length ∧
    s.originalPositions.length = 3 * targets.length := by
  obtain ⟨a1, a2, a3, a4⟩ :=
    sysTrace_len R (mkSystem trig targets palette r rv tx ty) n s h
  simp only [mkSystem, flat3_len] at a1 a2 a3 a4
  exact ⟨a1, a3, a4, a2⟩

/-- Witness for C3: the system spawned from one concrete target point has
3-element buffers and keeps them at trace position 0. -/
theorem c3_witness :
    (mkSystem { sin := fun _ => 0, cos := fun _ => 0, pi := 0 }
        [((0 : ℚ), (5 : ℚ), (0 : ℚ))] [0xFF7F00] (fun _ _ => 0) 0 0
        5).currentPositions.length =
      3 * [((0 : ℚ), (5 : ℚ), (0 : ℚ))].length :=
  (c3_particle_count_invariant { sin := fun _ => 0, cos := fun _ => 0, pi := 0 }
    [((0 : ℚ), (5 : ℚ), (0 : ℚ))] [0xFF7F00] (fun _ _ => 0) 0 0 5 wR 0 _ rfl).1

/-! ## Classifier theorems -/

/-- C7: whenever the thumb-tip-to-index-tip distance is at least 0.05
(equivalently, its square is at least 0.05², since the distance is a
nonnegative square root), the classifier never returns PINCH or OK_SIGN; and
whenever that distance is below 0.05 and not all four of index, middle, ring
and pinky are curled, it returns OK_SIGN if middle, ring and pinky are all
extended and PINCH otherwise. -/
theorem c7_classifier_pinch_threshold (l : Fin 21 → Vec3) :
    (distSq (l 4) (l 8) ≥ (1 / 20 : ℚ) ^ 2 →
       (processHand l).gesture ≠ GestureType.PINCH ∧
       (processHand l).gesture ≠ GestureType.OK_SIGN)
    ∧ (distSq (l 4) (l 8) < (1 / 20 : ℚ) ^ 2 →
       ¬(¬isFingerExtended l 8 ∧ ¬isFingerExtended l 12 ∧
          ¬isFingerExtended l 16 ∧ ¬isFingerExtended l 20) →
       (processHand l).gesture =
         if isFingerExtended l 12 ∧ isFingerExtended l 16 ∧
            isFingerExtended l 20
         then GestureType.OK_SIGN else GestureType.PINCH) := by
  constructor
  · intro hge
    have hnl : ¬(distSq (l 4) (l 8) < (1 / 20 : ℚ) ^ 2) := not_lt.mpr hge
    simp only [processHand]
    split_ifs <;> simp_all
  · intro hlt hncurl
    simp only [processHand]
    split_ifs <;> simp_all

/-- A concrete hand with the thumb tip far from the index tip. -/
def wHandFar : Fin 21 → Vec3 := fun i => if i = 4 then (1, 0, 0) else (0, 0, 0)

/-- A concrete hand with thumb and index tips touching and the middle finger
extended. -/
def wHandPinch : Fin 21 → Vec3 :=
  fun i => if i = 12 then (1, 0, 0) else (0, 0, 0)

/-- Witness for C7: on `wHandFar` the pinch distance is large and the result
is neither PINCH nor OK_SIGN; on `wHandPinch` the pinch distance is small,
the hand is not a fist, and the classifier returns PINCH. -/
theorem c7_witness :
    (distSq (wHandFar 4) (wHandFar 8) ≥ (1 / 20 : ℚ) ^ 2 ∧
      (processHand wHandFar).gesture ≠ GestureType.PINCH ∧
      (processHand wHandFar).gesture ≠ GestureType.OK_SIGN) ∧
    (distSq (wHandPinch 4) (wHandPinch 8) < (1 / 20 : ℚ) ^ 2 ∧
      (processHand wHandPinch).gesture = GestureType.PINCH) := by
  have e4 : wHandFar 4 = (1, 0, 0) := rfl
  have e8 : wHandFar 8 = (0, 0, 0) := rfl
  have p4 : wHandPinch 4 = (0, 0, 0) := rfl
  have p8 : wHandPinch 8 = (0, 0, 0) := rfl
  have p0 : wHandPinch 0 = (0, 0, 0) := rfl
  have p12 : wHandPinch 12 = (1, 0, 0) := rfl
  have p9 : wHandPinch 9 = (0, 0, 0) := rfl
  have p16 : wHandPinch 16 = (0, 0, 0) := rfl
  have p13 : wHandPinch 13 = (0, 0, 0) := rfl
  have hfar : distSq (wHandFar 4) (wHandFar 8) ≥ (1 / 20 : ℚ) ^ 2 := by
    rw [e4, e8]; norm_num [distSq]
  have hnear : distSq (wHandPinch 4) (wHandPinch 8) < (1 / 20 : ℚ) ^ 2 := by
    rw [p4, p8]; norm_num [distSq]
  have hmid : isFingerExtended wHandPinch 12 := by
    unfold isFingerExtended
    have : (12 : Fin 21) - 3 = 9 := rfl
    rw [this, p0, p12, p9]
    norm_num [distSq]
  have hring : ¬isFingerExtended wHandPinch 16 := by
    unfold isFingerExtended
    have : (16 : Fin 21) - 3 = 13 := rfl
    rw [this, p0, p16, p13]
    norm_num [distSq]
  have hnc : ¬(¬isFingerExtended wHandPinch 8 ∧ ¬isFingerExtended wHandPinch 12 ∧
      ¬isFingerExtended wHandPinch 16 ∧ ¬isFingerExtended wHandPinch 20) :=
    fun hc => hc.2.1 hmid
  have h1 := (c7_classifier_pinch_threshold wHandFar).1 hfar
  have h2 := (c7_classifier_pinch_threshold wHandPinch).2 hnear hnc
  rw [if_neg (fun hc => hring hc.2.1)] at h2
  exact ⟨⟨hfar, h1.1, h1.2⟩, ⟨hnear, h2⟩⟩

/-! ## Zoom bounds -/

/-- C6: the camera-distance parameter never leaves [10, 120]: the program's
initial value 50 lies in the interval, every sequence of ticks (with
arbitrary per-tick hand detection and gestures) keeps any in-interval value
inside it, and a detected PINCH tick is exactly `max 10 (z - 0.2)` while a
detected OPEN_PALM tick is exactly `min 120 (z + 0.2)`. -/
theorem c6_zoom_bounds (z : ℚ) (h1 : 10 ≤ z) (h2 : z ≤ 120) :
    (10 ≤ initEngine.cameraZ ∧ initEngine.cameraZ ≤ 120)
    ∧ (∀ (ds : ℕ → Bool) (gs : ℕ → GestureType) (n : ℕ),
        10 ≤ zoomIter ds gs z n ∧ zoomIter ds gs z n ≤ 120)
    ∧ (∀ z2 : ℚ, zoomStep true GestureType.PINCH z2 = max 10 (z2 - 1 / 5))
    ∧ (∀ z2 : ℚ, zoomStep true GestureType.OPEN_PALM z2 = min 120 (z2 + 1 / 5)) := by
  refine ⟨by norm_num [initEngine], ?_, fun z2 => rfl, fun z2 => rfl⟩
  have step : ∀ (d : Bool) (g : GestureType) (w : ℚ), 10 ≤ w → w ≤ 120 →
      10 ≤ zoomStep d g w ∧ zoomStep d g w ≤ 120 := by
    intro d g w hw1 hw2
    unfold zoomStep
    split_ifs
    · exact ⟨le_max_left _ _, max_le (by norm_num) (by linarith)⟩
    · exact ⟨le_min (by norm_num) (by linarith), min_le_left _ _⟩
    · exact ⟨hw1, hw2⟩
    · exact ⟨hw1, hw2⟩
  intro ds gs n
  induction n with
  | zero => exact ⟨h1, h2⟩
  | succ n ih => exact step (ds n) (gs n) _ ih.1 ih.2

/-- Witness for C6: three PINCH ticks from the initial camera distance 50
stay inside [10, 120]. -/
theorem c6_witness :
    10 ≤ zoomIter (fun _ => true) (fun _ => GestureType.PINCH) 50 3 ∧
    zoomIter (fun _ => true) (fun _ => GestureType.PINCH) 50 3 ≤ 120 :=
  (c6_zoom_bounds 50 (by norm_num) (by norm_num)).2.1
    (fun _ => true) (fun _ => GestureType.PINCH) 3

/-! ## Empty-shape spawn -/

/-- C8: a spawn whose resolved target shape has zero points leaves the
registry's system collection unchanged — no system is created and, the
operation being a total function, no error is surfaced. -/
theorem c8_empty_shape_spawn_noop (env : CanvasEnv) (r : ℕ → ℕ → ℚ) (rv : ℚ)
    (text : String) (scale tx ty : ℚ) (st : Option String) (s : EngineState)
    (h : (getPointsFromTextCanvas env s.textPointsCache text scale st).1 = []) :
    (spawnRocketFireworkE env r rv text scale tx ty st s).systems = s.systems := by
  unfold spawnRocketFireworkE
  simp [h]

/-- A canvas on which every text measures zero pixels wide, so rasterization
yields zero points. -/
def wEnvEmpty : CanvasEnv :=
  { widthOf := fun _ => 0
    alpha := fun _ _ _ => 0
    zrand := fun _ _ => 0
    trig := { sin := fun _ => 0, cos := fun _ => 0, pi := 0 } }

/-- The concrete text used by concrete rasterization scenarios. -/
def dText : String := "A"

/-- Witness for C8: a concrete zero-point spawn leaves the initial engine's
registry unchanged. -/
theorem c8_witness :
    (getPointsFromTextCanvas wEnvEmpty initEngine.textPointsCache dText 1
        none).1 = [] ∧
    (spawnRocketFireworkE wEnvEmpty (fun _ _ => 0) 0 dText 1 0 0 none
        initEngine).systems = initEngine.systems := by
  have h : (getPointsFromTextCanvas wEnvEmpty initEngine.textPointsCache dText 1
      none).1 = [] := by
    simp [getPointsFromTextCanvas, lookupC, initEngine, textPoints, wEnvEmpty]
  exact ⟨h, c8_empty_shape_spawn_noop wEnvEmpty (fun _ _ => 0) 0 dText 1 0 0
    none initEngine h⟩

/-! ## Pause semantics -/

/-- C5: while the pause flag is set, an `animate` tick leaves every particle
system exactly as it was (no timer, position, velocity, opacity or state
change), and a `runTextLoop` wait tick leaves the scripted-sequence elapsed
accumulator unchanged, so paused time never counts toward per-state
durations; meanwhile the tick itself still runs: the nebula still rotates,
the camera distance still takes its continuous-zoom update, and the cursor
still receives its position, visibility and (red-while-paused) color
feedback. -/
theorem c5_pause_freeze (env : AnimEnv) (R : ℕ → ℕ → ℕ → ℚ) (s : EngineState)
    (el : ℕ) (hp : s.isPaused = true) :
    (animateTick env R s).systems = s.systems
    ∧ (animateTick env R s).cameraZ =
        zoomStep s.isHandDetected s.handGesture s.cameraZ
    ∧ (animateTick env R s).nebulaRotZ = s.nebulaRotZ + 2 / 10000
    ∧ (animateTick env R s).cursorVisible = s.isHandDetected
    ∧ (animateTick env R s).cursorPos =
        env.unproject s.mouse (zoomStep s.isHandDetected s.handGesture s.cameraZ)
    ∧ (animateTick env R s).cursorColorHex =
        (if s.isHandDetected then 0xff0000 else s.cursorColorHex)
    ∧ loopWaitTick s.isPaused el = el := by
  simp only [animateTick, zoomStep, loopWaitTick, hp]
  by_cases hd : s.isHandDetected
  · by_cases hg1 : s.handGesture = GestureType.PINCH
    · simp [hd, hg1, hp]
    · by_cases hg2 : s.handGesture = GestureType.OPEN_PALM
      · simp [hd, hg1, hg2, hp]
      · simp [hd, hg1, hg2, hp]
  · simp [hd, hp]

/-- A concrete paused engine state with a detected PINCH. -/
def wPaused : EngineState :=
  { initEngine with
    isPaused := true
    isHandDetected := true
    handGesture := GestureType.PINCH
    systems := [wSys] }

/-- The cursor environment used by witnesses. -/
def wAnimEnv : AnimEnv := { unproject := fun _ _ => (0, 0, 0) }

/-- Witness for C5: a concrete paused tick freezes the (nonempty) registry
while zoom, nebula and cursor updates still happen. -/
theorem c5_witness :
    (animateTick wAnimEnv wR wPaused).systems = wPaused.systems
    ∧ (animateTick wAnimEnv wR wPaused).cameraZ =
        zoomStep wPaused.isHandDetected wPaused.handGesture wPaused.cameraZ
    ∧ (animateTick wAnimEnv wR wPaused).nebulaRotZ = wPaused.nebulaRotZ + 2 / 10000
    ∧ (animateTick wAnimEnv wR wPaused).cursorVisible = wPaused.isHandDetected
    ∧ (animateTick wAnimEnv wR wPaused).cursorPos =
        wAnimEnv.unproject wPaused.mouse
          (zoomStep wPaused.isHandDetected wPaused.handGesture wPaused.cameraZ)
    ∧ (animateTick wAnimEnv wR wPaused).cursorColorHex =
        (if wPaused.isHandDetected then 0xff0000 else wPaused.cursorColorHex)
    ∧ loopWaitTick wPaused.isPaused 700 = 700 :=
  c5_pause_freeze wAnimEnv wR wPaused 700 rfl

/-! ## Discrete-trigger cooldown -/

/-- Constant-zero random source used by concrete interaction scenarios. -/
def rf0 : ℕ → ℕ → ℚ := fun _ _ => 0

/-- C4: the discrete-trigger cooldown is one shared timestamp: a V_SIGN that
fires stores the call time into it (and spawns exactly one heart); a second
V_SIGN within 1500 ms of that spawns nothing, while one 1600 ms or more later
spawns a second heart; and an OK_SIGN that fires overwrites the same
timestamp, so a V_SIGN within 1500 ms of the OK_SIGN trigger is also
suppressed. -/
theorem c4_shared_cooldown (rfa rfb rfc rfd rfe : ℕ → ℕ → ℚ)
    (s0 : EngineState) (xa ya xb yb xc yc xd yd xe ye : ℚ)
    (t0 t1 t2 t3 t4 : ℤ) (h0 : t0 - s0.lastTriggerTime > 1500) :
    (updateHandE rfa t0 xa ya GestureType.V_SIGN true s0).2 = [heartReq]
    ∧ (updateHandE rfa t0 xa ya GestureType.V_SIGN true s0).1.lastTriggerTime = t0
    ∧ (t1 - t0 ≤ 1500 →
        (updateHandE rfb t1 xb yb GestureType.V_SIGN true
          (updateHandE rfa t0 xa ya GestureType.V_SIGN true s0).1).2 = [])
    ∧ (t2 - t0 ≥ 1600 →
        (updateHandE rfc t2 xc yc GestureType.V_SIGN true
          (updateHandE rfa t0 xa ya GestureType.V_SIGN true s0).1).2 = [heartReq])
    ∧ (t3 - t0 > 3000 →
        (updateHandE rfd t3 xd yd GestureType.OK_SIGN true
          (updateHandE rfa t0 xa ya GestureType.V_SIGN true s0).1).1.lastTriggerTime
            = t3
        ∧ (t4 - t3 ≤ 1500 →
            (updateHandE rfe t4 xe ye GestureType.V_SIGN true
              (updateHandE rfd t3 xd yd GestureType.OK_SIGN true
                (updateHandE rfa t0 xa ya GestureType.V_SIGN true
                  s0).1).1).2 = [])) := by
  refine ⟨?_, ?_, ?_, ?_, ?_⟩
  · simp [updateHandE, h0]
  · simp [updateHandE, h0]
  · intro ht
    have hb : ¬(1500 < t1 - t0) := by omega
    simp [updateHandE, h0, hb]
  · intro ht
    have hc : 1500 < t2 - t0 := by omega
    simp [updateHandE, h0, hc]
  · intro ht
    have hd3 : 3000 < t3 - t0 := by omega
    refine ⟨by simp [updateHandE, h0, hd3], ?_⟩
    intro ht4
    have he : ¬(1500 < t4 - t3) := by omega
    simp [updateHandE, h0, hd3, he]

/-- Witness for C4: concrete trigger times 2000/3000/3600/5100/6000 ms from
the initial state produce exactly the heart spawns the shared cooldown
dictates. -/
theorem c4_witness :
    (updateHandE rf0 2000 0 0 GestureType.V_SIGN true initEngine).2 = [heartReq]
    ∧ (updateHandE rf0 3000 0 0 GestureType.V_SIGN true
        (updateHandE rf0 2000 0 0 GestureType.V_SIGN true initEngine).1).2 = []
    ∧ (updateHandE rf0 3600 0 0 GestureType.V_SIGN true
        (updateHandE rf0 2000 0 0 GestureType.V_SIGN true
          initEngine).1).2 = [heartReq]
    ∧ (updateHandE rf0 6000 0 0 GestureType.V_SIGN true
        (updateHandE rf0 5100 0 0 GestureType.OK_SIGN true
          (updateHandE rf0 2000 0 0 GestureType.V_SIGN true
            initEngine).1).1).2 = [] := by
  have h := c4_shared_cooldown rf0 rf0 rf0 rf0 rf0 initEngine 0 0 0 0 0 0 0 0
    0 0 2000 3000 3600 5100 6000 (by simp [initEngine])
  exact ⟨h.1, h.2.2.1 (by omega), h.2.2.2.1 (by omega),
    (h.2.2.2.2 (by omega)).2 (by omega)⟩

/-! ## updateHand with no hand present -/

/-- Counterexample to C9 as stated: a concrete `updateHand` call with
`present = false` DOES modify engine state beyond the status label — the
stored pointer/cursor mapping (`this.mouse`) changes, because the source
writes the presence flag, the gesture and the NDC pointer before the
presence check. -/
theorem c9_counterexample :
    (updateHandE rf0 1000 0 0 GestureType.IDLE false initEngine).1.mouse ≠
      initEngine.mouse := by
  simp [updateHandE, initEngine]

/-- C9 (amended): an `updateHand` call with `present = false` sets the status
label to NO SIGNAL, fires no discrete trigger and leaves the shared cooldown
timestamp unchanged, but it first records the presence flag, the gesture and
the NDC pointer mapping from the call's arguments — everything else is
untouched. -/
theorem c9_no_signal_amended (rf : ℕ → ℕ → ℚ) (now : ℤ) (x y : ℚ)
    (g : GestureType) (s : EngineState) :
    updateHandE rf now x y g false s =
      ({ s with
          isHandDetected := false
          handGesture := g
          mouse := (x * 2 - 1, -(y * 2) + 1)
          currentAction := "NO SIGNAL" }, []) := by
  simp [updateHandE]

/-! ## Rasterizer cache -/

/-- Once a key is cached, a repeated `getPointsFromTextCanvas` call with the
same text and shape kind returns the cached cloud and leaves the cache
unchanged, regardless of the scale passed the second time. -/
theorem getPoints_cached (env : CanvasEnv) (cache : PointsCache)
    (text : String) (scale scale2 : ℚ) (st : Option String) :
    getPointsFromTextCanvas env
        (getPointsFromTextCanvas env cache text scale st).2 text scale2 st =
      ((getPointsFromTextCanvas env cache text scale st).1,
       (getPointsFromTextCanvas env cache text scale st).2) := by
  unfold getPointsFromTextCanvas
  cases hl : lookupC cache (st.getD text) with
  | some pts => simp [hl]
  | none =>
      by_cases hh : st = some HEART
      · subst hh
        simp only [Option.getD_some] at hl
        simp [hl, lookupC]
      · simp [hl, hh, lookupC]

/-- A canvas one pixel wide on which only the top-left pixel of any rendered
text passes the alpha threshold. -/
def wEnvPixel : CanvasEnv :=
  { widthOf := fun _ => 1
    alpha := fun _ _ y => if y = 0 then 200 else 0
    zrand := fun _ _ => 1 / 2
    trig := { sin := fun _ => 0, cos := fun _ => 0, pi := 0 } }

/-- A list whose every element maps to the empty list flat-maps to the empty
list. -/
theorem flatMap_nil_of_mem {α β : Type} (l : List α) (f : α → List β)
    (h : ∀ a ∈ l, f a = []) : l.flatMap f = [] := by
  induction l with
  | nil => rfl
  | cons a l ih =>
      rw [List.flatMap_cons, h a (List.mem_cons_self a l), List.nil_append]
      exact ih fun b hb => h b (List.mem_cons_of_mem a hb)

/-- Appending an empty second list to a singleton-valued first list. -/
theorem append_singleton_of_parts {α : Type} (A B : List α) (a : α)
    (hB : B = []) (hA : A = [a]) : A ++ B = [a] := by
  rw [hB, hA, List.append_nil]

/-- On a one-pixel-wide canvas whose only above-threshold pixel is `(0, 0)`,
the rasterizer produces exactly the one point the source's formula assigns to
that pixel. -/
theorem textPoints_single (env : CanvasEnv) (text : String) (scale : ℚ)
    (hw : env.widthOf text = 1)
    (ha : ∀ y, 0 < y → ¬(env.alpha text 0 y > 128))
    (h0 : env.alpha text 0 0 > 128) :
    textPoints env text scale =
      [(((0 : ℚ) - 1 / 2) * scale, (-((0 : ℚ) - 75)) * scale,
        (env.zrand 0 0 - 1 / 2) * 1)] := by
  unfold textPoints
  rw [hw]
  rw [show (150 : ℕ) = 149 + 1 from rfl, List.range_succ_eq_map,
    List.flatMap_cons]
  refine append_singleton_of_parts _ _ _ ?_ ?_
  · apply flatMap_nil_of_mem
    intro a hmem
    obtain ⟨k, _, hk⟩ := List.mem_map.mp hmem
    have hpos : ¬(env.alpha text 0 a > 128) := by
      refine ha a ?_
      omega
    have hle : env.alpha text 0 a ≤ 128 := not_lt.mp hpos
    simp [List.range_succ, hpos, hle]
  · simp [List.range_succ, h0]
    norm_num

/-- Counterexample to C2 as stated: on a concrete canvas, a second spawn
request with the same text but scale 2 instead of 1 does NOT get a distinct
cache entry with a rescaled cloud — it returns the scale-1 cloud unchanged,
because the cache key is the text alone, and the scale-1 cloud differs from
the scale-2 rasterization. -/
theorem c2_counterexample :
    (getPointsFromTextCanvas wEnvPixel
        (getPointsFromTextCanvas wEnvPixel [] dText 1 none).2 dText 2 none).1 =
      textPoints wEnvPixel dText 1
    ∧ textPoints wEnvPixel dText 1 ≠ textPoints wEnvPixel dText 2 := by
  have hw : wEnvPixel.widthOf dText = 1 := rfl
  have h0 : wEnvPixel.alpha dText 0 0 > 128 := by norm_num [wEnvPixel]
  have ha : ∀ y, 0 < y → ¬(wEnvPixel.alpha dText 0 y > 128) := by
    intro y hy
    simp [wEnvPixel, Nat.pos_iff_ne_zero.mp hy]
  have e1 := textPoints_single wEnvPixel dText 1 hw ha h0
  have e2 := textPoints_single wEnvPixel dText 2 hw ha h0
  constructor
  · have hfirst : (getPointsFromTextCanvas wEnvPixel [] dText 1 none).1 =
        textPoints wEnvPixel dText 1 := by
      simp [getPointsFromTextCanvas, lookupC]
    rw [getPoints_cached wEnvPixel [] dText 1 2 none]
    exact hfirst
  · rw [e1, e2]
    norm_num

/-- C2 (amended): the Shape Rasterizer caches target shapes under the text
string or shape name alone — the scale is not part of the key.  Two spawn
requests with the same text and the same scale therefore reuse the identical
cached point cloud (cache idempotence, the true part of the claim), and a
request differing only in scale reuses that very same entry, receiving the
cloud computed with the first request's scale. -/
theorem c2_cache_key_is_text_only (env : CanvasEnv) (cache : PointsCache)
    (text : String) (scale scale2 : ℚ) (st : Option String) :
    getPointsFromTextCanvas env
        (getPointsFromTextCanvas env cache text scale st).2 text scale2 st =
      ((getPointsFromTextCanvas env cache text scale st).1,
       (getPointsFromTextCanvas env cache text scale st).2) :=
  getPoints_cached env cache text scale scale2 st

/-! ## Palette invariance -/

/-- An `updateHand` call never changes the palette index. -/
theorem updateHandE_palette (rf : ℕ → ℕ → ℚ) (now : ℤ) (x y : ℚ)
    (g : GestureType) (p : Bool) (s : EngineState) :
    ((updateHandE rf now x y g p s).1).currentPaletteIndex =
      s.currentPaletteIndex := by
  simp only [updateHandE]
  split_ifs <;> rfl

/-- A spawn never changes the palette index. -/
theorem spawnE_palette (env : CanvasEnv) (r : ℕ → ℕ → ℚ) (rv : ℚ)
    (text : String) (scale tx ty : ℚ) (st : Option String) (s : EngineState) :
    (spawnRocketFireworkE env r rv text scale tx ty st s).currentPaletteIndex =
      s.currentPaletteIndex := by
  simp only [spawnRocketFireworkE]
  split_ifs <;> rfl

/-- An `animate` tick never changes the palette index. -/
theorem animateTick_palette (env : AnimEnv) (R : ℕ → ℕ → ℕ → ℚ)
    (s : EngineState) :
    (animateTick env R s).currentPaletteIndex = s.currentPaletteIndex := by
  simp only [animateTick]
  split_ifs <;> rfl

/-- No program operation changes the palette index. -/
theorem applyOp_palette (op : EngineOp) (s : EngineState) :
    (applyOp op s).currentPaletteIndex = s.currentPaletteIndex := by
  cases op <;>
    simp [applyOp, updateHandE_palette, spawnE_palette, animateTick_palette]

/-- C10: the palette index is 1 in the initial state and in every reachable
engine state — the palette-cycling routine is defined but no operation the
program performs invokes it — so the exposed current-theme label is the
constant Orange name, and the palette a spawn draws its base colors from
(`PALETTES[currentPaletteIndex]`, as passed by `spawnRocketFireworkE` to
`mkSystem`) is always the Orange color set. -/
theorem c10_palette_constant (s : EngineState) (h : Reachable s) :
    s.currentPaletteIndex = 1 ∧ currentTheme s = "橙 (Orange)" ∧
    (PALETTES.getD s.currentPaletteIndex emptyPalette).colors =
      [0xFF7F00, 0xFFA500, 0xFFD700, 0xFFFFFF, 0xFF4500] := by
  have hidx : s.currentPaletteIndex = 1 := by
    induction h with
    | init => rfl
    | step op h ih => rw [applyOp_palette]; exact ih
  refine ⟨hidx, ?_, ?_⟩
  · simp [currentTheme, hidx, PALETTES, emptyPalette]
  · simp [hidx, PALETTES, emptyPalette]

/-- Witness for C10: the initial state is reachable and exhibits palette
index 1, the Orange theme label and the Orange colors. -/
theorem c10_witness :
    initEngine.currentPaletteIndex = 1 ∧
    currentTheme initEngine = "橙 (Orange)" ∧
    (PALETTES.getD initEngine.currentPaletteIndex emptyPalette).colors =
      [0xFF7F00, 0xFFA500, 0xFFD700, 0xFFFFFF, 0xFF4500] :=
  c10_palette_constant initEngine Reachable.init

end Newyear
